import Mathlib

/-!
Verification of the Economic-Event-Analysis scrapers.

This file gives a shallow embedding of the three scraper scripts
(`fed_scrapper_until2010.py`, `fed_scrapper_until2024.py`,
`investopedia_scrapper.py`) and proves or refutes the frozen claims about
them.

Modelling conventions:
* A fetched page is represented by an `Html` structure whose fields are the
  results of the specific BeautifulSoup queries the source performs
  (`soup.find('title')`, `soup.find('ul', id='speechIndex')`, ...).  HTML
  parsing itself is an external collaborator and is not modelled.
* The network is an oracle `String → FetchOutcome` giving, per URL, either a
  response (status plus parsed body) or a raised transport-level exception.
* Python regular-expression searches (`re.search`) are external collaborators
  modelled as function parameters returning the captured group, if any.
* Where the Python code's observable effect matters to a claim (number of
  `session.get` calls, progress-bar updates, files written), the embedding
  returns that effect explicitly.
-/

/-- Result of `article_div.find('p', class_='speaker')` and
`article_div.find_all('p', class_=False, id=False)` inside `div#article`
(fed_scrapper_until2024.py). -/
structure Article where
  speakerTag : Option String
  contentParas : List String
deriving DecidableEq, Repr

/-- The `div#mntl-sc-block-callout-body_1-0` container
(investopedia_scrapper.py).  `numChildren` is `len(div.contents)`: a bs4 `Tag`
is falsy exactly when it has no children, which the source tests with
`if div`.  `liTexts` are the texts of `div.find_all('li')`. -/
structure Callout where
  numChildren : Nat
  liTexts : List String
deriving DecidableEq, Repr

/-- One deduplicated `p`/`ul`/`li` descendant of a `table[width=600]`
(fed_scrapper_until2010.py), carrying whether it is an `li` and its text. -/
structure Block where
  isLi : Bool
  text : String
deriving DecidableEq, Repr

/-- A parsed page: the raw response text plus the results of every
BeautifulSoup query the three scripts perform on it.  `none` models the
query finding no matching tag. -/
structure Html where
  /-- The raw response text; `if html:` in the source tests it nonempty. -/
  raw : String := ""
  /-- Text of `soup.find('title')`, when the tag exists. -/
  titleText : Option String := none
  /-- Hrefs of `a[href]` under `ul#speechIndex` (fed until2010). -/
  speechIndex : Option (List String) := none
  /-- Per `<p>` under `div.row.eventlist`: href of its class-less `<a>`,
  if one exists (fed until2024). -/
  eventListAnchors : Option (List (Option String)) := none
  /-- The `div#article` container (fed until2024). -/
  articleDiv : Option Article := none
  /-- Hrefs of `a[href]` under `ul#terms-bar__list_1-0` (investopedia). -/
  termsBarList : Option (List String) := none
  /-- Hrefs of `a[href]` under `div#dictionary-top300-list__content_1-0`
  (investopedia). -/
  top300Content : Option (List String) := none
  /-- The `div#mntl-sc-block-callout-body_1-0` container (investopedia). -/
  calloutBody : Option Callout := none
  /-- Deduplicated `p`/`ul`/`li` descendants of all `table[width=600]`
  (fed until2010). -/
  tables600 : List Block := []
deriving DecidableEq, Repr

/-- Outcome of one network call (`session.get` / `requests.get`) for a URL:
either a response with an HTTP status and a body, or a raised
transport-level exception (connection error, timeout, ...). -/
inductive FetchOutcome where
  | response (status : Nat) (body : Html)
  | exn
deriving DecidableEq, Repr

/-- Python exceptions that can escape the embedded functions. -/
inductive PyExn where
  /-- A transport-level `requests` exception (not `requests.HTTPError`). -/
  | transportError
  /-- `AttributeError`, e.g. `.text` on the `None` returned by a failed
  `soup.find`. -/
  | attrError
  /-- `TypeError`, e.g. iterating over `None`. -/
  | typeError
deriving DecidableEq, Repr

/-- One scraped speech record, the dict built by both Fed scripts with keys
`date`, `speaker`, `content` in insertion order. -/
structure SpeechData where
  date : String
  speaker : String
  content : String
deriving DecidableEq, Repr

/-- Models Python `s.split(sep)` for a one-character separator: empty
pieces are kept, and the empty string splits to one empty piece. -/
def splitOnChar (sep : Char) : List Char → List (List Char)
  | [] => [[]]
  | c :: rest =>
    let r := splitOnChar sep rest
    if c = sep then [] :: r
    else
      match r with
      | [] => [[c]]
      | g :: gs => (c :: g) :: gs

/-- Models Python `s.split(sep)[-1]`. -/
def lastPiece (sep : Char) (s : String) : String :=
  String.mk ((splitOnChar sep s.toList).getLastD [])

/-- Models Python `s.split(sep)[0]`. -/
def firstPiece (sep : Char) (s : String) : String :=
  String.mk ((splitOnChar sep s.toList).headD [])

/-- Models the Python expression `range(0, stop, step)` for a positive
`step`: the multiples of `step` that are strictly below `stop`. -/
def pyRange (stop step : Nat) : List Nat :=
  (List.range ((stop + step - 1) / step)).map (fun k => k * step)

/-- Models the chunking comprehension of `handle_main_link`
(investopedia_scrapper.py lines 256-259):
`[xs[i:i + c] for i in range(0, len(xs), c)]`. -/
def makeChunks {α : Type} (xs : List α) (c : Nat) : List (List α) :=
  (pyRange xs.length c).map (fun i => (xs.drop i).take c)

namespace Fed2010

/-- `getYearLinks` (fed_scrapper_until2010.py lines 94-110): `requests.get`
then `raise_for_status` inside a `try` whose only handler is
`except requests.HTTPError`.  A 4XX/5XX status makes `raise_for_status`
raise `HTTPError`, which is caught, logged, and turned into `return []`;
a transport-level exception raised by `requests.get` itself is not an
`HTTPError` and propagates to the caller.  When the fetch succeeds, hrefs
under `ul#speechIndex` are prefixed with the base URL; a missing
`speechIndex` container yields `[]`.  `mkBase` models the
`urlparse`-derived scheme-plus-netloc prefix (an external library). -/
def getYearLinks (net : String → FetchOutcome) (mkBase : String → String)
    (yearlink : String) : Except PyExn (List String) :=
  match net yearlink with
  | .exn => .error .transportError
  | .response s body =>
    if 400 ≤ s ∧ s ≤ 599 then .ok []
    else .ok (match body.speechIndex with
      | some hrefs => hrefs.map (fun h => mkBase yearlink ++ h)
      | none => [])

/-- `extract_date_from_url`: `urlparse(url).path.split('/')[-1].split('.')[0]`.
`urlPath` models `urlparse(url).path` (an external library). -/
def extract_date_from_url (urlPath : String → String) (url : String) : String :=
  firstPiece '.' (lastPiece '/' (urlPath url))

/-- The `concatenated_text` accumulation over the deduplicated `p`/`ul`/`li`
descendants of the `table[width=600]` elements: `li` texts get a bullet
prefix, and every block gets a trailing newline. -/
def renderBlocks (blocks : List Block) : String :=
  blocks.foldl (fun acc b =>
    acc ++ (if b.isLi then "• " ++ b.text ++ "\n" else b.text ++ "\n")) ""

/-- The insertion-ordered keys of the speech dict built at lines 143-147,
as returned by `data[0].keys()`. -/
def speechKeys (_ : SpeechData) : List String :=
  ["date", "speaker", "content"]

/-- One iteration of `scrape_speech_data`'s per-link loop (lines 122-150):
`requests.get` plus `raise_for_status` inside a `try` catching only
`requests.HTTPError`, then the speech dict is built from the page.
`reSearch` models the external collaborator
`re.search` for the speaker pattern on the title text, returning capture
group 1 when it matches.  `.ok none` is the caught-`HTTPError` path (the
link is skipped); `.error` is an uncaught exception escaping the loop.  In
particular, when the page has no `title` tag, `soup.find('title')` is
`None` and `.text` raises an uncaught `AttributeError`. -/
def processYearLink (reSearch : String → Option String)
    (net : String → FetchOutcome) (urlPath : String → String)
    (link : String) : Except PyExn (Option SpeechData) :=
  match net link with
  | .exn => .error .transportError
  | .response s body =>
    if 400 ≤ s ∧ s ≤ 599 then .ok none
    else
      match body.titleText with
      | none => .error .attrError
      | some titleText =>
        .ok (some {
          date := extract_date_from_url urlPath link,
          speaker := (reSearch titleText).getD "Speaker name not found",
          content := renderBlocks body.tables600 })

/-- `save_to_csv` (lines 154-162): returns the written filename and the
table (header row followed by one row per record).  The header is
`data[0].keys()` when `data` is nonempty and the literal fallback list
otherwise. -/
def save_to_csv (data : List SpeechData) (year : String) :
    String × List (List String) :=
  let keys := match data with
    | [] => ["date", "speaker", "content"]
    | d :: _ => speechKeys d
  ("speeches_" ++ year ++ ".csv",
    keys :: data.map (fun d => [d.date, d.speaker, d.content]))

/-- `scrape_speech_data` (lines 118-152): discovers the year's links, loops
over them accumulating records (a caught `HTTPError` skips a link; any
other exception propagates), then writes the CSV.  The result is the
written file, or the exception that escaped. -/
def scrape_speech_data (reSearch : String → Option String)
    (net : String → FetchOutcome) (mkBase : String → String)
    (urlPath : String → String) (year : String) :
    Except PyExn (String × List (List String)) := do
  let dateurl := "https://www.federalreserve.gov/newsevents/speech/"
    ++ year ++ "speech.htm"
  let yearlinks ← getYearLinks net mkBase dateurl
  let data ← yearlinks.foldlM (fun acc link => do
    match ← processYearLink reSearch net urlPath link with
    | some d => pure (acc ++ [d])
    | none => pure acc) []
  pure (save_to_csv data year)

end Fed2010

namespace Fed2024

/-- `fetch_page` (fed_scrapper_until2024.py lines 8-15): one `session.get`;
on a truthy (nonzero) status it returns the response text, otherwise it
falls through to `return None`; any exception is caught, logged, and also
yields `None`.  The second component counts the `session.get` calls the
body performs: always exactly one, as there is no retry loop. -/
def fetch_page (net : String → FetchOutcome) (url : String) :
    Option Html × Nat :=
  match net url with
  | .response s body => (if s ≠ 0 then some body else none, 1)
  | .exn => (none, 1)

/-- `''.join(filter(str.isdigit, s))`. -/
def digitsOnly (s : String) : String :=
  String.mk (s.toList.filter Char.isDigit)

/-- The year index URL built at line 45. -/
def yearIndexUrl (year : Nat) : String :=
  "https://www.federalreserve.gov/newsevents/speech/"
    ++ toString year ++ "-speeches.htm"

/-- `fetch_and_parse_speech` (lines 17-42).  On a falsy (failed or empty)
fetch the function ends without returning, i.e. yields `None`; a missing
`div#article` logs an error and returns `None`; otherwise the speech dict
is built, with the sentinel `'Speaker not found'` when the speaker tag is
absent, the space-joined class-less/id-less paragraph texts as content, and
the digits of the URL's last path stem as date. -/
def fetch_and_parse_speech (net : String → FetchOutcome)
    (urlPath : String → String) (url : String) : Option SpeechData :=
  match (fetch_page net url).1 with
  | some h =>
    if h.raw ≠ "" then
      match h.articleDiv with
      | none => none
      | some article =>
        some {
          date := digitsOnly (Fed2010.extract_date_from_url urlPath url),
          speaker := article.speakerTag.getD "Speaker not found",
          content := String.intercalate " " article.contentParas }
    else none
  | none => none

/-- `fetch_speeches_for_year` (lines 44-60).  The first component is the
list of terminal task values `asyncio.gather` produces for the dispatched
`fetch_and_parse_speech` tasks, in dispatch order; the second component is
the function's return value, which is always `none`: the body awaits the
gather but contains no `return` statement, so the gathered results are
discarded and Python returns `None`.  `urljoin` models
`urllib.parse.urljoin` (an external library). -/
def fetch_speeches_for_year (net : String → FetchOutcome)
    (urljoin : String → String → String) (urlPath : String → String)
    (year : Nat) :
    List (Option SpeechData) × Option (List (Option SpeechData)) :=
  let dateUrl := yearIndexUrl year
  match (fetch_page net dateUrl).1 with
  | some h =>
    if h.raw ≠ "" then
      let hrefs := match h.eventListAnchors with
        | some anchors =>
          (anchors.filterMap id).map (fun href => urljoin dateUrl href)
        | none => []
      (hrefs.map (fun u => fetch_and_parse_speech net urlPath u), none)
    else ([], none)
  | none => ([], none)

/-- The records `main` (lines 62-72) obtains for one year: it binds the
return value of `fetch_speeches_for_year` and filters falsy entries with
`[speech for speech in speeches if speech]`.  Since the return value is
actually `None`, that comprehension raises `TypeError`; had a list been
returned, the `None` entries would be dropped and the rest recorded. -/
def main_year_records (net : String → FetchOutcome)
    (urljoin : String → String → String) (urlPath : String → String)
    (year : Nat) : Except PyExn (List SpeechData) :=
  match (fetch_speeches_for_year net urljoin urlPath year).2 with
  | none => .error .typeError
  | some results => .ok (results.filterMap id)

end Fed2024

namespace Inv

/-- `fetch_page` (investopedia_scrapper.py lines 46-71): one `session.get`;
returns the response text regardless of HTTP status; any exception is
caught, logged, and yields `None`.  The second component counts the
`session.get` calls the body performs: always exactly one (no retry
loop). -/
def fetch_page (net : String → FetchOutcome) (url : String) :
    Option Html × Nat :=
  match net url with
  | .response _ body => (some body, 1)
  | .exn => (none, 1)

/-- `extract_text` (lines 74-93): `reWith` models the external regex
collaborator `re.search` for the pattern anchored at the URL's tail,
returning `group(1).strip('-')` when it matches; otherwise the sentinel
`'No match found'`. -/
def extract_text (reWith : String → Option String) (url : String) : String :=
  match reWith url with
  | some g => g
  | none => "No match found"

/-- `fetch_main_links` (lines 96-126): hrefs under `ul#terms-bar__list_1-0`
when the fetch is truthy and the container is a `Tag`, else `[]`. -/
def fetch_main_links (net : String → FetchOutcome) (url : String) :
    List String :=
  match (fetch_page net url).1 with
  | some h =>
    if h.raw ≠ "" then
      match h.termsBarList with
      | some hrefs => hrefs
      | none => []
    else []
  | none => []

/-- `fetch_detail_links` (lines 129-158): hrefs under
`div#dictionary-top300-list__content_1-0` when the fetch is truthy and the
container is a `Tag`, else `[]`. -/
def fetch_detail_links (net : String → FetchOutcome) (url : String) :
    List String :=
  match (fetch_page net url).1 with
  | some h =>
    if h.raw ≠ "" then
      match h.top300Content with
      | some hrefs => hrefs
      | none => []
    else []
  | none => []

/-- `scrape_title_and_summary` (lines 161-193).  On a truthy fetch the
title is the stripped `title` text or `'No Title Found'`; when the callout
div is a `Tag`, the summary joins its `li` texts when the div is truthy
(has children) and is `'No Summary Found'` otherwise, and the pair is
returned.  Every other path falls through to the final
`return 'No Title Found', 'No Summary Found'`. -/
def scrape_title_and_summary (net : String → FetchOutcome) (url : String) :
    String × String :=
  match (fetch_page net url).1 with
  | some h =>
    if h.raw ≠ "" then
      let title := match h.titleText with
        | some t => t.trim
        | none => "No Title Found"
      match h.calloutBody with
      | some div =>
        let summary := if div.numChildren ≠ 0
          then String.join div.liTexts
          else "No Summary Found"
        (title, summary)
      | none => ("No Title Found", "No Summary Found")
    else ("No Title Found", "No Summary Found")
  | none => ("No Title Found", "No Summary Found")

/-- `process_chunk` (lines 196-227): gathers `scrape_title_and_summary`
over the chunk; `asyncio.gather` preserves task order within the chunk. -/
def process_chunk (net : String → FetchOutcome) (chunk : List String) :
    List (String × String) :=
  chunk.map (fun url => scrape_title_and_summary net url)

/-- The rows `handle_main_link` (lines 230-267) accumulates: detail links
are chunked in discovery order and each chunk is submitted to the process
pool in order, but `as_completed` yields the chunk futures in completion
order; `order` is the list of chunk indices in that completion order, and
`data.extend(future.result())` appends each completed chunk's rows. -/
def handle_main_link_rows (net : String → FetchOutcome)
    (order : List Nat) (link : String) : List (String × String) :=
  let chunks := makeChunks (fetch_detail_links net link) 50
  let futures := chunks.map (fun chunk => process_chunk net chunk)
  (order.map (fun i => futures.getD i [])).flatten

/-- The file `handle_main_link` (lines 269-273) writes: `some` of the
filename and the table (header plus data rows) when `if data:` holds, and
`none` — no file written at all — when `data` is empty. -/
def handle_main_link (net : String → FetchOutcome)
    (reWith : String → Option String) (order : List Nat) (link : String) :
    Option (String × List (List String)) :=
  let data := handle_main_link_rows net order link
  if data ≠ [] then
    some ("data/investopedia/" ++ extract_text reWith link ++ ".csv",
      ["Title", "Summary"] :: data.map (fun r => [r.1, r.2]))
  else none

/-- The `progress_bar.update` calls `handle_main_link` issues: the
`progress_bar` parameter is accepted (line 232) but never used anywhere in
the body, so the list of update increments is empty for every input. -/
def handle_main_link_progressUpdates : List Nat := []

/-- A progress bar's displayed count after the first `t` update calls. -/
def progressAfter (updates : List Nat) (t : Nat) : Nat :=
  (updates.take t).foldl (fun a b => a + b) 0

end Inv

/-- Identity path extractor, used in concrete scenarios where the URL is
already a bare path. -/
def pathId : String → String := fun u => u

/-- A `urljoin` model returning the href unchanged, used in concrete
scenarios with absolute hrefs. -/
def joinSnd : String → String → String := fun _ h => h

/-- A regex collaborator that never matches. -/
def reNone : String → Option String := fun _ => none

/-- Concrete scenario for the until-2024 pipeline: the 2011 index page
lists one speech link `d1`, whose page carries an article div with a
speaker tag and two content paragraphs. -/
def netC1 : String → FetchOutcome := fun u =>
  if u = Fed2024.yearIndexUrl 2011 then
    .response 200 { raw := "x", eventListAnchors := some [some "d1"] }
  else
    .response 200
      { raw := "x",
        articleDiv := some { speakerTag := some "Chair", contentParas := ["a", "b"] } }

/-- Concrete scenario with 51 detail links (hence two chunks of chunk size
50) under the category page `main`; each detail page is identified by its
summary text. -/
def netC4 : String → FetchOutcome := fun u =>
  if u = "main" then
    .response 200 { raw := "x", top300Content := some ((List.range 51).map toString) }
  else
    .response 200 { raw := "x", calloutBody := some ⟨1, [u]⟩ }

/-- A page whose fetch succeeds but whose markup has no `title` tag. -/
def netC5 : String → FetchOutcome := fun _ =>
  .response 200 { raw := "x" }

/-- Concrete until-2010 scenario: the 1999 index page lists one speech
link whose page has no `title` tag. -/
def netC5run : String → FetchOutcome := fun u =>
  if u = "https://www.federalreserve.gov/newsevents/speech/1999speech.htm" then
    .response 200 { raw := "x", speechIndex := some ["/l1"] }
  else
    .response 200 { raw := "x" }

/-- A category page whose detail-link container is present but empty. -/
def netC7 : String → FetchOutcome := fun _ =>
  .response 200 { raw := "x", top300Content := some [] }

/-- A category page with exactly one detail link, whose page has a
callout div with one list item. -/
def netC9 : String → FetchOutcome := fun u =>
  if u = "main" then
    .response 200 { raw := "x", top300Content := some ["d1"] }
  else
    .response 200 { raw := "x", calloutBody := some ⟨1, ["S"]⟩ }

/-- A network on which every request raises a transport-level exception. -/
def netDown : String → FetchOutcome := fun _ => .exn

/-- A page whose fetch succeeds with a 200 status and empty markup: no
link containers, no title, no article. -/
def netBare : String → FetchOutcome := fun _ =>
  .response 200 { raw := "x" }

/-- A network answering every request with a 404 response. -/
def net404 : String → FetchOutcome := fun _ =>
  .response 404 { raw := "x" }

/-- A page with a `title` tag but no speaker match and no content
tables. -/
def netTitleT : String → FetchOutcome := fun _ =>
  .response 200 { raw := "x", titleText := some "T" }

/-- A page with an article div whose speaker tag is absent. -/
def netArtNoSp : String → FetchOutcome := fun _ =>
  .response 200
    { raw := "x",
      articleDiv := some { speakerTag := none, contentParas := ["p1", "p2"] } }

theorem flatten_range_chunks {α : Type} (xs : List α) (c k : Nat) :
    ((List.range k).map (fun j => (xs.drop (j * c)).take c)).flatten
      = xs.take (k * c) := by
  induction k with
  | zero => simp
  | succ k ih =>
    rw [List.range_succ, List.map_append, List.flatten_append]
    simp only [List.map_cons, List.map_nil, List.flatten_cons,
      List.flatten_nil, List.append_nil]
    rw [ih, Nat.succ_mul, List.take_add]

theorem ceilDiv_succ (m c : Nat) (hc : 0 < c) :
    (m + 1 + c - 1) / c = m / c + 1 := by
  have h : m + 1 + c - 1 = m + c := by omega
  rw [h, Nat.add_div_right _ hc]

theorem le_ceilDiv_mul (n c : Nat) (hc : 0 < c) :
    n ≤ ((n + c - 1) / c) * c := by
  rcases n with _ | m
  · exact Nat.zero_le _
  · rw [ceilDiv_succ m c hc]
    have h2 := Nat.div_add_mod m c
    have h3 : m % c < c := Nat.mod_lt _ hc
    have h4 : m % c + 1 ≤ c := h3
    calc m + 1 = c * (m / c) + (m % c + 1) := by omega
    _ ≤ c * (m / c) + c := Nat.add_le_add_left h4 _
    _ = (m / c + 1) * c := by ring

theorem succ_mul_le_of_lt_ceilDiv (m c j : Nat) (hc : 0 < c)
    (h : j + 1 < (m + 1 + c - 1) / c) : (j + 1) * c ≤ m + 1 := by
  rw [ceilDiv_succ m c hc] at h
  have h2 : j + 1 ≤ m / c := Nat.lt_succ_iff.mp h
  calc (j + 1) * c ≤ (m / c) * c := Nat.mul_le_mul_right c h2
  _ ≤ m := Nat.div_mul_le_self m c
  _ ≤ m + 1 := Nat.le_succ m

theorem makeChunks_flatten {α : Type} (xs : List α) (c : Nat) (hc : 0 < c) :
    (makeChunks xs c).flatten = xs := by
  unfold makeChunks pyRange
  rw [List.map_map]
  have hcomp : ((fun i => (xs.drop i).take c) ∘ (fun k : Nat => k * c))
      = (fun j : Nat => (xs.drop (j * c)).take c) := rfl
  rw [hcomp, flatten_range_chunks]
  exact List.take_of_length_le (le_ceilDiv_mul _ _ hc)

theorem makeChunks_length {α : Type} (xs : List α) (c : Nat) :
    (makeChunks xs c).length = (xs.length + c - 1) / c := by
  simp [makeChunks, pyRange]

theorem makeChunks_getElem {α : Type} (xs : List α) (c i : Nat)
    (h : i < (makeChunks xs c).length) :
    (makeChunks xs c).get ⟨i, h⟩ = (xs.drop (i * c)).take c := by
  simp [makeChunks, pyRange, List.get_eq_getElem]

/-- C8: for every ordered item list and every positive chunk size, the
Batcher's chunking comprehension partitions the list into contiguous chunks
whose in-order concatenation is the original list, with every chunk of
length at most `c` and every non-final chunk of length exactly `c`. -/
theorem batcher_partitions_list {α : Type} (xs : List α) (c : Nat)
    (hc : 0 < c) :
    (makeChunks xs c).flatten = xs ∧
    (∀ l ∈ makeChunks xs c, l.length ≤ c) ∧
    (∀ i, (h : i < (makeChunks xs c).length) → i + 1 < (makeChunks xs c).length →
      ((makeChunks xs c).get ⟨i, h⟩).length = c) := by
  refine ⟨makeChunks_flatten xs c hc, ?_, ?_⟩
  · intro l hl
    simp only [makeChunks, List.mem_map] at hl
    obtain ⟨i, _, rfl⟩ := hl
    exact List.length_take_le _ _
  · intro i h hlast
    rw [makeChunks_getElem xs c i h]
    rw [makeChunks_length] at hlast
    rcases xs.length.eq_zero_or_pos with hn | hn
    · rw [hn] at hlast
      have hz : (0 + c - 1) / c = 0 := by
        apply Nat.div_eq_of_lt
        omega
      rw [hz] at hlast
      omega
    · obtain ⟨m, hm⟩ := Nat.exists_eq_add_of_le hn
      rw [List.length_take, List.length_drop]
      have hbound : (i + 1) * c ≤ xs.length := by
        rw [hm] at hlast ⊢
        rw [Nat.add_comm 1 m] at hlast ⊢
        exact succ_mul_le_of_lt_ceilDiv m c i hc hlast

      have : i * c + c ≤ xs.length := by
        calc i * c + c = (i + 1) * c := by ring
        _ ≤ xs.length := hbound
      omega

/-- Witness for C8 at a concrete list of five items and chunk size two. -/
theorem batcher_partitions_list_witness :
    (0 < 2) ∧
    ((makeChunks [10, 11, 12, 13, 14] 2).flatten = [10, 11, 12, 13, 14] ∧
    (∀ l ∈ makeChunks [10, 11, 12, 13, 14] 2, l.length ≤ 2) ∧
    (∀ i, (h : i < (makeChunks [10, 11, 12, 13, 14] 2).length) →
      i + 1 < (makeChunks [10, 11, 12, 13, 14] 2).length →
      ((makeChunks [10, 11, 12, 13, 14] 2).get ⟨i, h⟩).length = 2)) :=
  ⟨by decide, batcher_partitions_list [10, 11, 12, 13, 14] 2 (by decide)⟩

theorem map_getD_range {α : Type} (l : List α) (d : α) :
    (List.range l.length).map (fun i => l.getD i d) = l := by
  induction l with
  | nil => simp
  | cons x xs ih =>
    rw [List.length_cons, List.range_succ_eq_map, List.map_cons, List.map_map]
    have hcomp : ((fun i => (x :: xs).getD i d) ∘ Nat.succ)
        = (fun i => xs.getD i d) := by
      funext i
      simp
    simp only [List.getD_cons_zero, hcomp, ih]

theorem fed2024_fsfy_snd_none (net : String → FetchOutcome)
    (urljoin : String → String → String) (urlPath : String → String)
    (year : Nat) :
    (Fed2024.fetch_speeches_for_year net urljoin urlPath year).2 = none := by
  simp only [Fed2024.fetch_speeches_for_year]
  split
  · split <;> rfl
  · rfl

/-- C1: the claim fails on the code and the code is the slip:
`fetch_speeches_for_year` awaits `asyncio.gather` but has no `return`
statement, so its return value is always `None` and `main` — whose own
code expects a list from it — records zero Results (its comprehension
over `None` raises `TypeError`).  Concretely, with one WorkItem dispatched
and one terminal result computed, no Result is recorded. -/
theorem fed2024_results_never_recorded :
    (∀ net urljoin urlPath year,
      (Fed2024.fetch_speeches_for_year net urljoin urlPath year).2 = none ∧
      Fed2024.main_year_records net urljoin urlPath year
        = .error .typeError) ∧
    (Fed2024.fetch_speeches_for_year netC1 joinSnd pathId 2011).1
      = [some { date := "1", speaker := "Chair", content := "a b" }] := by
  constructor
  · intro net urljoin urlPath year
    have h2 := fed2024_fsfy_snd_none net urljoin urlPath year
    refine ⟨h2, ?_⟩
    unfold Fed2024.main_year_records
    rw [h2]
  · decide

/-- C2 counterexample: both fetchers perform exactly one `session.get`
attempt on a network that always fails, not `retryBudget + 1 = 2`. -/
theorem fetcher_no_retry_counterexample :
    (Inv.fetch_page netDown "u").2 = 1 ∧
    (Fed2024.fetch_page netDown "u").2 = 1 ∧
    (Inv.fetch_page netDown "u").2 ≠ 1 + 1 := by
  refine ⟨rfl, rfl, ?_⟩
  decide

/-- C2 amended: there is no retry at all — every fetch performs exactly
one attempt, for every network and URL, so an always-failing Fetcher
causes exactly one attempt before `None` is returned. -/
theorem fetcher_single_attempt (net : String → FetchOutcome) (url : String) :
    (Inv.fetch_page net url).2 = 1 ∧ (Fed2024.fetch_page net url).2 = 1 := by
  constructor
  · unfold Inv.fetch_page
    cases net url <;> rfl
  · unfold Fed2024.fetch_page
    cases net url <;> rfl

/-- C3 counterexample: on a network raising a transport-level exception,
`getYearLinks` propagates the raw exception to its caller (only
`requests.HTTPError` is caught), and the exception also escapes
`scrape_speech_data`, instead of being mapped to a `FetchError` result. -/
theorem fed2010_transport_exception_propagates :
    Fed2010.getYearLinks netDown (fun _ => "") "y" = .error .transportError ∧
    Fed2010.scrape_speech_data reNone netDown (fun _ => "") pathId "1999"
      = .error .transportError := ⟨rfl, rfl⟩

/-- C3 amended: 4XX/5XX responses are caught uniformly (logged and
mapped to an empty result / skipped link), but a transport-level
exception is not an `HTTPError` and propagates raw to the caller of
`getYearLinks` and of the per-link fetch in `scrape_speech_data`. -/
theorem fed2010_error_mapping (net : String → FetchOutcome)
    (mkBase : String → String) (urlPath : String → String)
    (reSearch : String → Option String) (url : String) :
    (net url = .exn →
      Fed2010.getYearLinks net mkBase url = .error .transportError ∧
      Fed2010.processYearLink reSearch net urlPath url
        = .error .transportError) ∧
    (∀ s body, net url = .response s body → 400 ≤ s → s ≤ 599 →
      Fed2010.getYearLinks net mkBase url = .ok [] ∧
      Fed2010.processYearLink reSearch net urlPath url = .ok none) := by
  constructor
  · intro h
    constructor
    · unfold Fed2010.getYearLinks
      rw [h]
    · unfold Fed2010.processYearLink
      rw [h]
  · intro s body h h4 h5
    constructor
    · unfold Fed2010.getYearLinks
      rw [h]
      simp [h4, h5]
    · unfold Fed2010.processYearLink
      rw [h]
      simp [h4, h5]

/-- Witness for the amended C3 at a fully-down network and at a network
answering 404 everywhere. -/
theorem fed2010_error_mapping_witness :
    (netDown "y" = .exn ∧
      (Fed2010.getYearLinks netDown (fun _ => "") "y"
          = .error .transportError ∧
        Fed2010.processYearLink reNone netDown pathId "y"
          = .error .transportError)) ∧
    (net404 "y" = .response 404 { raw := "x" } ∧
      (Fed2010.getYearLinks net404 (fun _ => "") "y" = .ok [] ∧
        Fed2010.processYearLink reNone net404 pathId "y" = .ok none)) :=
  ⟨⟨rfl, (fed2010_error_mapping netDown (fun _ => "") pathId reNone "y").1 rfl⟩,
   ⟨rfl, (fed2010_error_mapping net404 (fun _ => "") pathId reNone "y").2
      404 { raw := "x" } rfl (by decide) (by decide)⟩⟩

/-- C4 counterexample: with 51 detail links (two chunks) the output rows
follow chunk completion order, not WorkItem sequence order: when the
second chunk completes first, its single row leads the table, and the two
completion orders produce different output tables. -/
theorem investopedia_row_order_counterexample :
    (Inv.fetch_detail_links netC4 "main").head? = some "0" ∧
    (Inv.handle_main_link_rows netC4 [1, 0] "main").head?
      = some ("No Title Found", "50") ∧
    Inv.handle_main_link netC4 reNone [1, 0] "main"
      ≠ Inv.handle_main_link netC4 reNone [0, 1] "main" := by
  decide

/-- C4 amended: within a chunk, rows follow sequence order, and chunks
appear in completion order, so for every completion order (a permutation
of the chunk indices) the collected rows are a permutation of the rows in
WorkItem sequence order — the row multiset, not the row order, is
independent of completion order. -/
theorem investopedia_rows_perm_of_sequence (net : String → FetchOutcome)
    (link : String) (order : List Nat)
    (h : order.Perm
      (List.range (makeChunks (Inv.fetch_detail_links net link) 50).length)) :
    (Inv.handle_main_link_rows net order link).Perm
      ((Inv.fetch_detail_links net link).map
        (fun u => Inv.scrape_title_and_summary net u)) := by
  simp only [Inv.handle_main_link_rows]
  generalize hL : Inv.fetch_detail_links net link = links at h ⊢
  have h2 : (List.range ((makeChunks links 50).map
        (fun chunk => Inv.process_chunk net chunk)).length).map
        (fun i => ((makeChunks links 50).map
          (fun chunk => Inv.process_chunk net chunk)).getD i [])
      = (makeChunks links 50).map (fun chunk => Inv.process_chunk net chunk) :=
    map_getD_range _ _
  rw [List.length_map] at h2
  have h3 := h.map
    (fun i => ((makeChunks links 50).map
      (fun chunk => Inv.process_chunk net chunk)).getD i [])
  rw [h2] at h3
  have h4 := h3.flatten
  have h5 : ((makeChunks links 50).map
        (fun chunk => Inv.process_chunk net chunk)).flatten
      = links.map (fun u => Inv.scrape_title_and_summary net u) := by
    rw [show (fun chunk => Inv.process_chunk net chunk)
        = (fun chunk : List String =>
            chunk.map (fun u => Inv.scrape_title_and_summary net u)) from rfl]
    rw [← List.map_flatten, makeChunks_flatten links 50 (by decide)]
  rw [h5] at h4
  exact h4

/-- Witness for the amended C4 at the two-chunk scenario with the
in-order completion order. -/
theorem investopedia_rows_perm_of_sequence_witness :
    ([0, 1] : List Nat).Perm
      (List.range (makeChunks (Inv.fetch_detail_links netC4 "main") 50).length) ∧
    (Inv.handle_main_link_rows netC4 [0, 1] "main").Perm
      ((Inv.fetch_detail_links netC4 "main").map
        (fun u => Inv.scrape_title_and_summary netC4 u)) :=
  ⟨by decide, investopedia_rows_perm_of_sequence netC4 "main" [0, 1] (by decide)⟩

/-- C5 counterexample: a successfully fetched page with no `title` tag
makes the until-2010 extractor raise an uncaught `AttributeError`
(`soup.find('title')` is `None`), which is neither a Record with a
sentinel for the missing field nor a terminal `ParseError`, and the
exception aborts the whole year's loop in `scrape_speech_data`. -/
theorem fed2010_missing_title_crashes :
    Fed2010.processYearLink reNone netC5 pathId "link" = .error .attrError ∧
    Fed2010.scrape_speech_data reNone netC5run (fun _ => "") pathId "1999"
      = .error .attrError := ⟨rfl, rfl⟩

/-- C5 amended: when the fetched page has a `title` tag (until-2010) or an
article div (until-2024), a missing field-level match yields a Record with
an explicit sentinel (`'Speaker name not found'` / `'Speaker not found'`,
empty content for no tables), all columns present; a missing article div
yields the terminal `None`; but an until-2010 page with no `title` tag
raises an uncaught `AttributeError` instead of producing a Record or a
terminal `ParseError`. -/
theorem missing_field_sentinel_behaviour
    (reSearch : String → Option String) (urlPath : String → String)
    (link : String) :
    (∀ (net : String → FetchOutcome) s body t,
      net link = .response s body → ¬(400 ≤ s ∧ s ≤ 599) →
      body.titleText = some t → reSearch t = none →
      Fed2010.processYearLink reSearch net urlPath link
        = .ok (some { date := Fed2010.extract_date_from_url urlPath link,
                      speaker := "Speaker name not found",
                      content := Fed2010.renderBlocks body.tables600 })) ∧
    (Fed2010.renderBlocks [] = "") ∧
    (∀ (net : String → FetchOutcome) s body article,
      net link = .response s body → s ≠ 0 → body.raw ≠ "" →
      body.articleDiv = some article → article.speakerTag = none →
      Fed2024.fetch_and_parse_speech net urlPath link
        = some { date := Fed2024.digitsOnly
                   (Fed2010.extract_date_from_url urlPath link),
                 speaker := "Speaker not found",
                 content := String.intercalate " " article.contentParas }) ∧
    (∀ (net : String → FetchOutcome) s body,
      net link = .response s body → s ≠ 0 → body.raw ≠ "" →
      body.articleDiv = none →
      Fed2024.fetch_and_parse_speech net urlPath link = none) := by
  refine ⟨?_, rfl, ?_, ?_⟩
  · intro net s body t hnet hs ht hre
    simp [Fed2010.processYearLink, hnet, hs, ht, hre]
  · intro net s body article hnet hs0 hraw hart hsp
    simp [Fed2024.fetch_and_parse_speech, Fed2024.fetch_page, hnet, hs0,
      hraw, hart, hsp]
  · intro net s body hnet hs0 hraw hart
    simp [Fed2024.fetch_and_parse_speech, Fed2024.fetch_page, hnet, hs0,
      hraw, hart]

/-- Witness for the amended C5 at concrete pages exercising each branch. -/
theorem missing_field_sentinel_behaviour_witness :
    reNone "T" = none ∧
    Fed2010.processYearLink reNone netTitleT pathId "link"
      = .ok (some { date := Fed2010.extract_date_from_url pathId "link",
                    speaker := "Speaker name not found",
                    content := Fed2010.renderBlocks [] }) ∧
    Fed2024.fetch_and_parse_speech netArtNoSp pathId "link"
      = some { date := Fed2024.digitsOnly
                 (Fed2010.extract_date_from_url pathId "link"),
               speaker := "Speaker not found",
               content := String.intercalate " " ["p1", "p2"] } ∧
    Fed2024.fetch_and_parse_speech netBare pathId "link" = none :=
  ⟨rfl,
   (missing_field_sentinel_behaviour reNone pathId "link").1 netTitleT
     200 { raw := "x", titleText := some "T" } "T" rfl (by decide) rfl rfl,
   (missing_field_sentinel_behaviour reNone pathId "link").2.2.1 netArtNoSp
     200 { raw := "x",
           articleDiv := some { speakerTag := none, contentParas := ["p1", "p2"] } }
     { speakerTag := none, contentParas := ["p1", "p2"] }
     rfl (by decide) (by decide) rfl rfl,
   (missing_field_sentinel_behaviour reNone pathId "link").2.2.2 netBare
     200 { raw := "x" } rfl (by decide) (by decide) rfl⟩

/-- C6: a missing link container is a legitimate zero-work outcome: when
the fetch itself succeeds but the expected container is absent from the
markup, `getYearLinks`, `fetch_detail_links` and `fetch_main_links` all
return the empty list rather than an error. -/
theorem link_discovery_missing_container_empty
    (net : String → FetchOutcome) (mkBase : String → String) (url : String) :
    (∀ s body, net url = .response s body → ¬(400 ≤ s ∧ s ≤ 599) →
      body.speechIndex = none → Fed2010.getYearLinks net mkBase url = .ok []) ∧
    (∀ h, (Inv.fetch_page net url).1 = some h → h.top300Content = none →
      Inv.fetch_detail_links net url = []) ∧
    (∀ h, (Inv.fetch_page net url).1 = some h → h.termsBarList = none →
      Inv.fetch_main_links net url = []) := by
  refine ⟨?_, ?_, ?_⟩
  · intro s body hnet hs hidx
    simp [Fed2010.getYearLinks, hnet, hs, hidx]
  · intro h hf hc
    unfold Inv.fetch_detail_links
    rw [hf]
    by_cases hr : h.raw = "" <;> simp [hr, hc]
  · intro h hf hc
    unfold Inv.fetch_main_links
    rw [hf]
    by_cases hr : h.raw = "" <;> simp [hr, hc]

/-- Witness for C6 at a page with no containers at all. -/
theorem link_discovery_missing_container_empty_witness :
    netBare "u" = .response 200 { raw := "x" } ∧
    Fed2010.getYearLinks netBare (fun _ => "") "u" = .ok [] ∧
    Inv.fetch_detail_links netBare "u" = [] ∧
    Inv.fetch_main_links netBare "u" = [] :=
  ⟨rfl,
   (link_discovery_missing_container_empty netBare (fun _ => "") "u").1
     200 { raw := "x" } rfl (by decide) rfl,
   (link_discovery_missing_container_empty netBare (fun _ => "") "u").2.1
     { raw := "x" } rfl rfl,
   (link_discovery_missing_container_empty netBare (fun _ => "") "u").2.2
     { raw := "x" } rfl rfl⟩

/-- C7 counterexample: for a category whose detail-link container is
present but empty (zero detail links), `handle_main_link` writes no file
at all — the `if data:` guard skips the write — rather than producing a
header-only table. -/
theorem investopedia_zero_links_no_file :
    Inv.fetch_detail_links netC7 "main" = [] ∧
    Inv.handle_main_link netC7 reNone [] "main" = none := by
  decide

/-- C7 amended: with zero rows the until-2010 `save_to_csv` still writes a
header-only table, but the investopedia `handle_main_link` writes no file
at all when a category has zero detail links. -/
theorem zero_links_output (year : String) (net : String → FetchOutcome)
    (reWith : String → Option String) (order : List Nat) (link : String)
    (h : Inv.fetch_detail_links net link = []) :
    Fed2010.save_to_csv [] year
      = ("speeches_" ++ year ++ ".csv", [["date", "speaker", "content"]]) ∧
    Inv.handle_main_link net reWith order link = none := by
  constructor
  · rfl
  · simp only [Inv.handle_main_link, Inv.handle_main_link_rows, h]
    have hrows : ((order.map (fun i =>
        ((makeChunks ([] : List String) 50).map
          (fun chunk => Inv.process_chunk net chunk)).getD i [])).flatten
        : List (String × String)) = [] := by
      simp [List.flatten_eq_nil_iff, show makeChunks ([] : List String) 50 = []
        from rfl]
    rw [hrows]
    simp

/-- Witness for the amended C7 at the empty-container scenario. -/
theorem zero_links_output_witness :
    Inv.fetch_detail_links netC7 "main" = [] ∧
    (Fed2010.save_to_csv [] "1999"
        = ("speeches_" ++ "1999" ++ ".csv", [["date", "speaker", "content"]]) ∧
      Inv.handle_main_link netC7 reNone [] "main" = none) :=
  ⟨rfl, zero_links_output "1999" netC7 reNone [] "main" rfl⟩

/-- C9 counterexample: after a run in which one item reached a terminal
Result, the progress count delivered to the progress bar is still 0 (the
`progress_bar` parameter is never updated), so the count is not accurate. -/
theorem progress_count_never_updated_counterexample :
    (Inv.handle_main_link_rows netC9 [0] "main").length = 1 ∧
    Inv.handle_main_link_progressUpdates = [] ∧
    Inv.progressAfter Inv.handle_main_link_progressUpdates 1
      ≠ (Inv.handle_main_link_rows netC9 [0] "main").length := by
  decide

/-- C9 amended: the delivered count is trivially non-decreasing because it
is constantly 0 — `handle_main_link` never updates its progress bar — so
the accuracy half of the claim fails whenever any item completes. -/
theorem progress_count_constant_zero :
    (∀ t, Inv.progressAfter Inv.handle_main_link_progressUpdates t = 0) ∧
    (∀ t t', t ≤ t' →
      Inv.progressAfter Inv.handle_main_link_progressUpdates t
        ≤ Inv.progressAfter Inv.handle_main_link_progressUpdates t') := by
  constructor
  · intro t
    simp [Inv.progressAfter, Inv.handle_main_link_progressUpdates]
  · intro t t' h
    simp [Inv.progressAfter, Inv.handle_main_link_progressUpdates]

/-- Witness for the amended C9. -/
theorem progress_count_constant_zero_witness :
    Inv.progressAfter Inv.handle_main_link_progressUpdates 3 = 0 ∧
    (1 ≤ 3) ∧
    Inv.progressAfter Inv.handle_main_link_progressUpdates 1
      ≤ Inv.progressAfter Inv.handle_main_link_progressUpdates 3 :=
  ⟨progress_count_constant_zero.1 3, by decide,
   progress_count_constant_zero.2 1 3 (by decide)⟩

/-- C10: `scrape_title_and_summary` is total and never yields an error
value — by construction it returns a pair of strings on every path — with
the sentinel pair when the fetch fails, the title sentinel when the
`title` tag is absent, and the summary sentinel when the callout container
is absent. -/
theorem scrape_title_and_summary_total (net : String → FetchOutcome)
    (url : String) :
    ((Inv.fetch_page net url).1 = none →
      Inv.scrape_title_and_summary net url
        = ("No Title Found", "No Summary Found")) ∧
    (∀ h, (Inv.fetch_page net url).1 = some h → h.titleText = none →
      (Inv.scrape_title_and_summary net url).1 = "No Title Found") ∧
    (∀ h, (Inv.fetch_page net url).1 = some h → h.calloutBody = none →
      (Inv.scrape_title_and_summary net url).2 = "No Summary Found") := by
  refine ⟨?_, ?_, ?_⟩
  · intro h
    unfold Inv.scrape_title_and_summary
    rw [h]
  · intro h hf ht
    unfold Inv.scrape_title_and_summary
    rw [hf]
    by_cases hr : h.raw = ""
    · simp [hr]
    · cases hc : h.calloutBody with
      | some d => simp [hr, ht, hc]
      | none => simp [hr, hc]
  · intro h hf hc
    unfold Inv.scrape_title_and_summary
    rw [hf]
    by_cases hr : h.raw = "" <;> simp [hr, hc]

/-- Witness for C10 at a down network and at an empty page. -/
theorem scrape_title_and_summary_total_witness :
    (Inv.fetch_page netDown "u").1 = none ∧
    Inv.scrape_title_and_summary netDown "u"
      = ("No Title Found", "No Summary Found") ∧
    (Inv.scrape_title_and_summary netBare "u").1 = "No Title Found" ∧
    (Inv.scrape_title_and_summary netBare "u").2 = "No Summary Found" :=
  ⟨rfl, (scrape_title_and_summary_total netDown "u").1 rfl,
   (scrape_title_and_summary_total netBare "u").2.1 { raw := "x" } rfl rfl,
   (scrape_title_and_summary_total netBare "u").2.2 { raw := "x" } rfl rfl⟩
